import Mathlib

/-!
Shallow embedding of `src/main.rs` (a small Bevy application: a keyboard-moved
cat sprite with a triggered looping frame animation).

Part 1: the animation player (`AnimationConfig`, `trigger_animation`,
`execute_animations`).  Time deltas and timer durations are modelled as exact
rationals (`ℚ`): the source seeds the timer with `1/fps` seconds and the spec
states its timing claims in exact seconds.

Part 2: the movement system (`move_cat`), modelled over `ℝ` because it
normalizes the direction vector (a square root).
-/

/-- Bevy `Timer` in `TimerMode::Once`, as used by the source.
`tick d`: if already finished, `just_finished` becomes false and elapsed stays;
otherwise elapsed advances by `d`, capping at `duration`, and `just_finished`
is set exactly when the cap is reached on this tick. -/
structure BTimer where
  duration : ℚ
  elapsed : ℚ
  justFinished : Bool
deriving DecidableEq, Repr

def BTimer.tick (t : BTimer) (delta : ℚ) : BTimer :=
  if t.duration ≤ t.elapsed then
    { t with justFinished := false }
  else
    let e := t.elapsed + delta
    if t.duration ≤ e then
      { t with elapsed := t.duration, justFinished := true }
    else
      { t with elapsed := e, justFinished := false }

/-- `AnimationConfig` component from the source. -/
structure AnimationConfig where
  first_sprite_index : ℕ
  last_sprite_index : ℕ
  fps : ℕ
  frame_timer : BTimer
  is_playing : Bool
deriving DecidableEq, Repr

/-- `AnimationConfig::timer_from_fps`: a fresh single-shot `1/fps`-second timer. -/
def timer_from_fps (fps : ℕ) : BTimer :=
  { duration := 1 / (fps : ℚ), elapsed := 0, justFinished := false }

/-- `AnimationConfig::new`. -/
def AnimationConfig.new (first last fps : ℕ) : AnimationConfig :=
  { first_sprite_index := first
    last_sprite_index := last
    fps := fps
    frame_timer := timer_from_fps fps
    is_playing := false }

/-- The animation-relevant state of the cat entity: its `AnimationConfig`
component together with the sprite's texture-atlas frame index. -/
structure AnimState where
  config : AnimationConfig
  atlasIndex : ℕ
deriving DecidableEq, Repr

/-- `trigger_animation`: reseed the frame timer and set `is_playing`.
The sprite (hence the atlas index) is untouched. -/
def trigger_animation (s : AnimState) : AnimState :=
  { s with
    config := { s.config with
      frame_timer := timer_from_fps s.config.fps
      is_playing := true } }

/-- `execute_animations` for the single cat entity, given this frame's elapsed
time `delta`.  Mirrors the source: skip when not playing; tick the timer; on
`just_finished`, either loop back to `first_sprite_index` and stop (frame is the
last) or advance by one and reseed the timer.  The source's 1 ms
`thread::sleep` on the loop-reset branch has no effect on any modelled state.
The source guards on `sprite.texture_atlas` being present; `setup` always
creates it, so the atlas index is modelled directly. -/
def execute_animations (delta : ℚ) (s : AnimState) : AnimState :=
  if s.config.is_playing = false then s
  else
    let t := s.config.frame_timer.tick delta
    if t.justFinished then
      if s.atlasIndex = s.config.last_sprite_index then
        { config := { s.config with frame_timer := t, is_playing := false }
          atlasIndex := s.config.first_sprite_index }
      else
        { config := { s.config with frame_timer := timer_from_fps s.config.fps }
          atlasIndex := s.atlasIndex + 1 }
    else
      { s with config := { s.config with frame_timer := t } }

/-- The animation state produced by `setup`: `AnimationConfig::new(0, 59, 60)`
and the atlas index initialised to `first_sprite_index`. -/
def setupAnim : AnimState :=
  { config := AnimationConfig.new 0 59 60
    atlasIndex := (AnimationConfig.new 0 59 60).first_sprite_index }

/-- One scheduler-visible step of the animation subsystem: either the
space-key trigger fires, or the `execute_animations` system runs with some
elapsed time. -/
inductive AnimStep where
  | trigger : AnimStep
  | tick : ℚ → AnimStep
deriving DecidableEq, Repr

def animStep (s : AnimState) : AnimStep → AnimState
  | AnimStep.trigger => trigger_animation s
  | AnimStep.tick d => execute_animations d s

def runAnim (s : AnimState) : List AnimStep → AnimState
  | [] => s
  | st :: rest => runAnim (animStep s st) rest

/-- Iterated ticks at exactly `1/60` seconds each. -/
def animIter (s : AnimState) : ℕ → AnimState
  | 0 => s
  | n + 1 => execute_animations (1 / 60) (animIter s n)

/-! Part 2: the movement system `move_cat`. -/

/-- `CAT_SPEED` constant from the source. -/
def CAT_SPEED : ℝ := 250

/-- The four held directional keys read by `move_cat` (W, S, A, D). -/
structure Keys where
  w : Bool
  s : Bool
  a : Bool
  d : Bool
deriving DecidableEq, Repr

/-- Window dimensions, as read by `window.width()` / `window.height()`. -/
structure BWindow where
  width : ℝ
  height : ℝ

/-- The movement-relevant state of the cat entity: the transform translation's
x and y and the sprite's `flip_x` flag. -/
structure MoveState where
  x : ℝ
  y : ℝ
  flip_x : Bool

/-- `direction_x` after the four key branches: A subtracts 1, D adds 1. -/
def direction_x (k : Keys) : ℝ :=
  (if k.a then -1 else 0) + (if k.d then 1 else 0)

/-- `direction_y` after the four key branches: W adds 1, S subtracts 1. -/
def direction_y (k : Keys) : ℝ :=
  (if k.w then 1 else 0) + (if k.s then -1 else 0)

/-- The `flip_x` flag after the key branches: the A branch sets it to true,
then the D branch (evaluated after A) sets it to false. -/
def flipAfter (k : Keys) (old : Bool) : Bool :=
  if k.d then false else if k.a then true else old

open Classical in
/-- The unclamped `new_x` of `move_cat`:
`translation.x + normalized_direction.x * CAT_SPEED * delta`. -/
noncomputable def new_x (k : Keys) (dt : ℝ) (st : MoveState) : ℝ :=
  st.x + direction_x k / Real.sqrt (direction_x k ^ 2 + direction_y k ^ 2)
    * CAT_SPEED * dt

open Classical in
/-- The unclamped `new_y` of `move_cat`. -/
noncomputable def new_y (k : Keys) (dt : ℝ) (st : MoveState) : ℝ :=
  st.y + direction_y k / Real.sqrt (direction_x k ^ 2 + direction_y k ^ 2)
    * CAT_SPEED * dt

/-- Rust `f32::clamp(min, max)` (for `min ≤ max`): below `min` gives `min`,
above `max` gives `max`, otherwise the value itself. -/
noncomputable def rclamp (v lo hi : ℝ) : ℝ :=
  if v < lo then lo else if v > hi then hi else v

open Classical in
/-- The body of `move_cat`, given the held keys, this frame's elapsed time,
the window, and the cat's current state.  The flip branches run first; then,
only when the direction vector is non-zero, the position is updated to the
normalized displacement and clamped to the window interior inset by the
80-unit half-sprite (`160.0 / 2.0`). -/
noncomputable def move_cat (k : Keys) (dt : ℝ) (win : BWindow) (st : MoveState) :
    MoveState :=
  let flip := flipAfter k st.flip_x
  if direction_x k = 0 ∧ direction_y k = 0 then
    { st with flip_x := flip }
  else
    let cat_half_width : ℝ := 160 / 2
    let cat_half_height : ℝ := 160 / 2
    let left_bound := -(win.width / 2) + cat_half_width
    let right_bound := win.width / 2 - cat_half_width
    let bottom_bound := -(win.height / 2) + cat_half_height
    let top_bound := win.height / 2 - cat_half_height
    { x := rclamp (new_x k dt st) left_bound right_bound
      y := rclamp (new_y k dt st) bottom_bound top_bound
      flip_x := flip }

/-- `move_cat` as scheduled by Bevy: its `Single<&Window>` parameter means the
whole system is skipped (does not run at all) on any frame where the primary
window is unavailable, so the state is returned unchanged in that case. -/
noncomputable def move_cat_system (k : Keys) (dt : ℝ) (win : Option BWindow)
    (st : MoveState) : MoveState :=
  match win with
  | none => st
  | some w => move_cat k dt w st

/-- The movement state produced by `setup`: `Transform::IDENTITY` translation
`(0, 0)` and default `flip_x = false`. -/
def setupMove : MoveState := { x := 0, y := 0, flip_x := false }

/-- One frame's input to the movement system. -/
structure MoveFrame where
  keys : Keys
  dt : ℝ

/-- Run a sequence of movement frames against the fixed 1024×1024 window. -/
noncomputable def runMove (st : MoveState) : List MoveFrame → MoveState
  | [] => st
  | f :: rest => runMove (move_cat f.keys f.dt { width := 1024, height := 1024 } st) rest

/-! Theorems.  First, helper facts about the animation player. -/

/-- The cat's `AnimationConfig` while the triggered animation is running:
the `setup` constants with a fresh timer and `is_playing = true`. -/
def playingCfg : AnimationConfig :=
  { first_sprite_index := 0, last_sprite_index := 59, fps := 60
    frame_timer := timer_from_fps 60, is_playing := true }

lemma fresh_tick_sixtieth :
    (timer_from_fps 60).tick (1 / 60) =
      { duration := 1 / 60, elapsed := 1 / 60, justFinished := true } := by
  simp only [timer_from_fps, BTimer.tick]
  norm_num

lemma anim_tick_advance (i : ℕ) (h : i ≠ 59) :
    execute_animations (1 / 60) { config := playingCfg, atlasIndex := i } =
      { config := playingCfg, atlasIndex := i + 1 } := by
  simp only [execute_animations, playingCfg, timer_from_fps, BTimer.tick]
  norm_num [h]

lemma anim_tick_last :
    execute_animations (1 / 60) { config := playingCfg, atlasIndex := 59 } =
      { config := { first_sprite_index := 0, last_sprite_index := 59, fps := 60
                    frame_timer := { duration := 1 / 60, elapsed := 1 / 60, justFinished := true }
                    is_playing := false }
        atlasIndex := 0 } := by
  simp only [execute_animations, playingCfg, timer_from_fps, BTimer.tick]
  norm_num

lemma trigger_setup : trigger_animation setupAnim = { config := playingCfg, atlasIndex := 0 } := rfl

lemma animIter_closed (k : ℕ) (h : k ≤ 59) :
    animIter (trigger_animation setupAnim) k = { config := playingCfg, atlasIndex := k } := by
  induction k with
  | zero => exact trigger_setup
  | succ n ih =>
    rw [animIter, ih (by omega), anim_tick_advance n (by omega)]

lemma animIter_sixty :
    animIter (trigger_animation setupAnim) 60 =
      { config := { first_sprite_index := 0, last_sprite_index := 59, fps := 60
                    frame_timer := { duration := 1 / 60, elapsed := 1 / 60, justFinished := true }
                    is_playing := false }
        atlasIndex := 0 } := by
  rw [show (60 : ℕ) = 59 + 1 from rfl, animIter, animIter_closed 59 (by omega), anim_tick_last]

/-- Claim C1: starting from the idle setup state with the animation triggered,
60 consecutive `execute_animations` ticks of exactly 1/60 s each (fps = 60,
first = 0, last = 59) visit the frame indices 0,1,...,59,0, with `is_playing`
true after each of ticks 0..59 of the run so far and false exactly after the
60th advance (the tick at the last index resets to the first index and clears
`is_playing`). -/
theorem anim_sixty_tick_cycle :
    ((List.range 61).map fun k =>
        (animIter (trigger_animation setupAnim) k).atlasIndex)
      = List.range 60 ++ [0]
    ∧ ((List.range 61).map fun k =>
        (animIter (trigger_animation setupAnim) k).config.is_playing)
      = List.replicate 60 true ++ [false] := by
  constructor
  · apply List.ext_getElem
    · simp
    · intro i h1 h2
      simp only [List.getElem_map, List.getElem_range]
      have hi : i < 61 := by simpa using h1
      rcases Nat.lt_or_ge i 60 with hlt | hge
      · rw [animIter_closed i (by omega)]
        rw [List.getElem_append_left (by simpa using hlt)]
        simp
      · have : i = 60 := by omega
        subst this
        rw [animIter_sixty]
        rw [List.getElem_append_right (by simp)]
        simp
  · apply List.ext_getElem
    · simp
    · intro i h1 h2
      simp only [List.getElem_map, List.getElem_range]
      have hi : i < 61 := by simpa using h1
      rcases Nat.lt_or_ge i 60 with hlt | hge
      · rw [animIter_closed i (by omega)]
        rw [List.getElem_append_left (by simpa using hlt), List.getElem_replicate]
        simp [playingCfg]
      · have : i = 60 := by omega
        subst this
        rw [animIter_sixty]
        rw [List.getElem_append_right (by simp)]
        simp

/-- The frame-index range invariant for the setup constants (first = 0,
last = 59): the invariant also records that no step changes those constants. -/
def IndexInv (s : AnimState) : Prop :=
  s.config.first_sprite_index = 0 ∧ s.config.last_sprite_index = 59 ∧ s.atlasIndex ≤ 59

lemma animStep_IndexInv (s : AnimState) (st : AnimStep) (h : IndexInv s) :
    IndexInv (animStep s st) := by
  obtain ⟨h1, h2, h3⟩ := h
  cases st with
  | trigger => exact ⟨h1, h2, h3⟩
  | tick d =>
    simp only [animStep, execute_animations]
    split_ifs with hp hf hl
    · exact ⟨h1, h2, h3⟩
    · refine ⟨h1, h2, ?_⟩
      show s.config.first_sprite_index ≤ 59
      omega
    · refine ⟨h1, h2, ?_⟩
      rw [h2] at hl
      show s.atlasIndex + 1 ≤ 59
      omega
    · exact ⟨h1, h2, h3⟩

lemma runAnim_IndexInv (steps : List AnimStep) (s : AnimState) (h : IndexInv s) :
    IndexInv (runAnim s steps) := by
  induction steps generalizing s with
  | nil => exact h
  | cons st rest ih => exact ih (animStep s st) (animStep_IndexInv s st h)

/-- Claim C2: in every state reachable from the setup state (first = 0,
last = 59) by any interleaving of trigger and animation-tick steps, the
sprite's atlas frame index stays within
`[first_sprite_index, last_sprite_index]`. -/
theorem anim_index_in_range (steps : List AnimStep) :
    (runAnim setupAnim steps).config.first_sprite_index
        ≤ (runAnim setupAnim steps).atlasIndex
    ∧ (runAnim setupAnim steps).atlasIndex
        ≤ (runAnim setupAnim steps).config.last_sprite_index := by
  have h := runAnim_IndexInv steps setupAnim ⟨rfl, rfl, by norm_num [setupAnim, AnimationConfig.new]⟩
  obtain ⟨h1, h2, h3⟩ := h
  constructor
  · rw [h1]; exact Nat.zero_le _
  · rw [h2]; exact h3

/-- Claim C4: an animation tick applied to a state with `is_playing = false`
is a no-op: the frame index and the whole animation state are unchanged. -/
theorem idle_tick_noop (dt : ℚ) (s : AnimState) (h : s.config.is_playing = false) :
    execute_animations dt s = s := by
  simp [execute_animations, h]

theorem idle_tick_noop_witness :
    setupAnim.config.is_playing = false ∧ execute_animations 1 setupAnim = setupAnim :=
  ⟨rfl, idle_tick_noop 1 setupAnim rfl⟩

/-- Claim C5: triggering while already playing leaves the frame index
unchanged, resets `frame_timer` to a fresh `1/fps`-second single-shot
countdown, and is idempotent: trigger twice equals trigger once. -/
theorem trigger_idempotent (s : AnimState) (h : s.config.is_playing = true) :
    (trigger_animation s).atlasIndex = s.atlasIndex
    ∧ (trigger_animation s).config.frame_timer = timer_from_fps s.config.fps
    ∧ trigger_animation (trigger_animation s) = trigger_animation s :=
  ⟨rfl, rfl, rfl⟩

theorem trigger_idempotent_witness :
    (trigger_animation setupAnim).config.is_playing = true
    ∧ ((trigger_animation (trigger_animation setupAnim)).atlasIndex
          = (trigger_animation setupAnim).atlasIndex
      ∧ (trigger_animation (trigger_animation setupAnim)).config.frame_timer
          = timer_from_fps (trigger_animation setupAnim).config.fps
      ∧ trigger_animation (trigger_animation (trigger_animation setupAnim))
          = trigger_animation (trigger_animation setupAnim)) :=
  ⟨rfl, trigger_idempotent (trigger_animation setupAnim) rfl⟩

/-- The inductive invariant behind claim C10: whenever the animation is not
playing, the frame index sits at `first_sprite_index`. -/
def IdleAtFirst (s : AnimState) : Prop :=
  s.config.is_playing = false → s.atlasIndex = s.config.first_sprite_index

lemma animStep_IdleAtFirst (s : AnimState) (st : AnimStep) (h : IdleAtFirst s) :
    IdleAtFirst (animStep s st) := by
  cases st with
  | trigger => exact fun hfalse => Bool.noConfusion hfalse
  | tick d =>
    simp only [animStep, execute_animations]
    split_ifs with hp hf hl
    · exact h
    · intro hfalse
      rfl
    · exact fun hfalse => absurd hfalse hp
    · exact fun hfalse => absurd hfalse hp

lemma runAnim_IdleAtFirst (steps : List AnimStep) (s : AnimState) (h : IdleAtFirst s) :
    IdleAtFirst (runAnim s steps) := by
  induction steps generalizing s with
  | nil => exact h
  | cons st rest ih => exact ih (animStep s st) (animStep_IdleAtFirst s st h)

/-- Claim C10: in every reachable state, `is_playing = false` implies the
frame index equals `first_sprite_index` — playback only stops via the
last-frame transition that resets the index, and nothing moves the index
while idle, so triggering from idle always starts at the first frame. -/
theorem idle_implies_first_frame (steps : List AnimStep)
    (h : (runAnim setupAnim steps).config.is_playing = false) :
    (runAnim setupAnim steps).atlasIndex
      = (runAnim setupAnim steps).config.first_sprite_index :=
  runAnim_IdleAtFirst steps setupAnim (fun _ => rfl) h

theorem idle_implies_first_frame_witness :
    (runAnim setupAnim []).config.is_playing = false
    ∧ (runAnim setupAnim []).atlasIndex
        = (runAnim setupAnim []).config.first_sprite_index :=
  ⟨rfl, idle_implies_first_frame [] rfl⟩

/-! Movement helper lemmas. -/

lemma rclamp_mem (v lo hi : ℝ) (h : lo ≤ hi) :
    lo ≤ rclamp v lo hi ∧ rclamp v lo hi ≤ hi := by
  unfold rclamp
  split_ifs with h1 h2
  · exact ⟨le_refl lo, h⟩
  · exact ⟨h, le_refl hi⟩
  · exact ⟨le_of_not_lt h1, le_of_not_lt h2⟩

lemma move_cat_of_dir_zero (k : Keys) (dt : ℝ) (win : BWindow) (st : MoveState)
    (h : direction_x k = 0 ∧ direction_y k = 0) :
    move_cat k dt win st = { st with flip_x := flipAfter k st.flip_x } := by
  simp only [move_cat]
  rw [if_pos h]

lemma move_cat_of_dir_ne (k : Keys) (dt : ℝ) (win : BWindow) (st : MoveState)
    (h : ¬(direction_x k = 0 ∧ direction_y k = 0)) :
    move_cat k dt win st =
      { x := rclamp (new_x k dt st) (-(win.width / 2) + 160 / 2) (win.width / 2 - 160 / 2)
        y := rclamp (new_y k dt st) (-(win.height / 2) + 160 / 2) (win.height / 2 - 160 / 2)
        flip_x := flipAfter k st.flip_x } := by
  simp only [move_cat]
  rw [if_neg h]

lemma direction_x_cases (k : Keys) :
    direction_x k = 0 ∨ direction_x k = 1 ∨ direction_x k = -1 := by
  unfold direction_x
  cases k.a <;> cases k.d <;> norm_num

lemma direction_y_cases (k : Keys) :
    direction_y k = 0 ∨ direction_y k = 1 ∨ direction_y k = -1 := by
  unfold direction_y
  cases k.w <;> cases k.s <;> norm_num

lemma dir_sq_sum_ne (k : Keys) (hz : ¬(direction_x k = 0 ∧ direction_y k = 0)) :
    direction_x k ^ 2 + direction_y k ^ 2 ≠ 0 := by
  intro h0
  have hx2 : direction_x k ^ 2 = 0 := by
    have := sq_nonneg (direction_x k)
    have := sq_nonneg (direction_y k)
    linarith
  have hy2 : direction_y k ^ 2 = 0 := by
    have := sq_nonneg (direction_x k)
    have := sq_nonneg (direction_y k)
    linarith
  exact hz ⟨pow_eq_zero_iff (two_ne_zero) |>.mp hx2,
    pow_eq_zero_iff (two_ne_zero) |>.mp hy2⟩

lemma norm_displacement (dx dy c : ℝ) (hc : 0 ≤ c) (hs : dx ^ 2 + dy ^ 2 ≠ 0) :
    Real.sqrt ((dx / Real.sqrt (dx ^ 2 + dy ^ 2) * c) ^ 2
        + (dy / Real.sqrt (dx ^ 2 + dy ^ 2) * c) ^ 2) = c := by
  have hpos : 0 < dx ^ 2 + dy ^ 2 := lt_of_le_of_ne (by positivity) (Ne.symm hs)
  have hsq : Real.sqrt (dx ^ 2 + dy ^ 2) ^ 2 = dx ^ 2 + dy ^ 2 := Real.sq_sqrt hpos.le
  have hrt : 0 < Real.sqrt (dx ^ 2 + dy ^ 2) := Real.sqrt_pos.mpr hpos
  have key : (dx / Real.sqrt (dx ^ 2 + dy ^ 2) * c) ^ 2
      + (dy / Real.sqrt (dx ^ 2 + dy ^ 2) * c) ^ 2 = c ^ 2 := by
    field_simp
    ring
  rw [key, Real.sqrt_sq hc]

/-- The position invariant for the 1024×1024 window: both coordinates stay in
`[-432, 432]` (`1024/2 - 80 = 432`). -/
def InBounds (st : MoveState) : Prop :=
  -432 ≤ st.x ∧ st.x ≤ 432 ∧ -432 ≤ st.y ∧ st.y ≤ 432

lemma move_cat_InBounds (k : Keys) (dt : ℝ) (st : MoveState) (h : InBounds st) :
    InBounds (move_cat k dt { width := 1024, height := 1024 } st) := by
  by_cases hz : direction_x k = 0 ∧ direction_y k = 0
  · rw [move_cat_of_dir_zero k dt _ st hz]
    exact h
  · rw [move_cat_of_dir_ne k dt _ st hz]
    have hx := rclamp_mem (new_x k dt st)
      (-((1024 : ℝ) / 2) + 160 / 2) ((1024 : ℝ) / 2 - 160 / 2) (by norm_num)
    have hy := rclamp_mem (new_y k dt st)
      (-((1024 : ℝ) / 2) + 160 / 2) ((1024 : ℝ) / 2 - 160 / 2) (by norm_num)
    refine ⟨?_, ?_, ?_, ?_⟩ <;>
      · show _ ≤ _
        first
          | (refine le_trans (by norm_num) hx.1)
          | (refine le_trans hx.2 (by norm_num))
          | (refine le_trans (by norm_num) hy.1)
          | (refine le_trans hy.2 (by norm_num))

lemma runMove_InBounds (frames : List MoveFrame) (st : MoveState) (h : InBounds st) :
    InBounds (runMove st frames) := by
  induction frames generalizing st with
  | nil => exact h
  | cons f rest ih => exact ih _ (move_cat_InBounds f.keys f.dt st h)

/-- Claim C3: for the 1024×1024 window and the fixed 80-unit half-sprite,
starting from the setup position `(0, 0)`, after any sequence of movement
frames with any held-key sets and any non-negative elapsed times, both
coordinates of the cat's position remain within `[-432, 432]`. -/
theorem position_in_bounds (frames : List MoveFrame)
    (hdt : ∀ f ∈ frames, 0 ≤ f.dt) :
    -432 ≤ (runMove setupMove frames).x ∧ (runMove setupMove frames).x ≤ 432
    ∧ -432 ≤ (runMove setupMove frames).y ∧ (runMove setupMove frames).y ≤ 432 :=
  runMove_InBounds frames setupMove (by norm_num [setupMove, InBounds])

theorem position_in_bounds_witness :
    (∀ f ∈ [({ keys := { w := false, s := false, a := false, d := true }, dt := 1 } : MoveFrame)],
        0 ≤ f.dt)
    ∧ (-432 ≤ (runMove setupMove
          [{ keys := { w := false, s := false, a := false, d := true }, dt := 1 }]).x
      ∧ (runMove setupMove
          [{ keys := { w := false, s := false, a := false, d := true }, dt := 1 }]).x ≤ 432
      ∧ -432 ≤ (runMove setupMove
          [{ keys := { w := false, s := false, a := false, d := true }, dt := 1 }]).y
      ∧ (runMove setupMove
          [{ keys := { w := false, s := false, a := false, d := true }, dt := 1 }]).y ≤ 432) :=
  ⟨by simp, position_in_bounds _ (by simp)⟩

/-- Claim C6: on any movement frame with a non-zero held-key direction vector
and a non-negative elapsed time, the pre-clamp displacement added to the
position has magnitude exactly `CAT_SPEED * dt` (speed 250); with exactly one
axis held the displacement along that axis is exactly `CAT_SPEED * dt` in
absolute value and the other coordinate is unchanged; diagonal input also
yields magnitude `CAT_SPEED * dt` (normalized), not `CAT_SPEED * dt * √2`. -/
theorem displacement_magnitude (k : Keys) (dt : ℝ) (st : MoveState)
    (hz : ¬(direction_x k = 0 ∧ direction_y k = 0)) (hdt : 0 ≤ dt) :
    Real.sqrt ((new_x k dt st - st.x) ^ 2 + (new_y k dt st - st.y) ^ 2)
        = CAT_SPEED * dt
    ∧ (direction_y k = 0 →
        |new_x k dt st - st.x| = CAT_SPEED * dt ∧ new_y k dt st = st.y)
    ∧ (direction_x k = 0 →
        |new_y k dt st - st.y| = CAT_SPEED * dt ∧ new_x k dt st = st.x) := by
  have hc : (0 : ℝ) ≤ CAT_SPEED * dt := mul_nonneg (by norm_num [CAT_SPEED]) hdt
  have ex : new_x k dt st - st.x
      = direction_x k / Real.sqrt (direction_x k ^ 2 + direction_y k ^ 2)
          * (CAT_SPEED * dt) := by
    unfold new_x; ring
  have ey : new_y k dt st - st.y
      = direction_y k / Real.sqrt (direction_x k ^ 2 + direction_y k ^ 2)
          * (CAT_SPEED * dt) := by
    unfold new_y; ring
  refine ⟨?_, ?_, ?_⟩
  · rw [ex, ey]
    exact norm_displacement _ _ _ hc (dir_sq_sum_ne k hz)
  · intro hy
    constructor
    · rw [ex, hy]
      rcases direction_x_cases k with h1 | h1 | h1
      · exact absurd ⟨h1, hy⟩ hz
      · rw [h1]
        norm_num [Real.sqrt_one, abs_of_nonneg hc]
      · rw [h1]
        norm_num [Real.sqrt_one, abs_of_nonneg hc]
    · have : new_y k dt st - st.y = 0 := by rw [ey, hy]; ring
      linarith
  · intro hx
    constructor
    · rw [ey, hx]
      rcases direction_y_cases k with h2 | h2 | h2
      · exact absurd ⟨hx, h2⟩ hz
      · rw [h2]
        norm_num [Real.sqrt_one, abs_of_nonneg hc]
      · rw [h2]
        norm_num [Real.sqrt_one, abs_of_nonneg hc]
    · have : new_x k dt st - st.x = 0 := by rw [ex, hx]; ring
      linarith

theorem displacement_magnitude_witness :
    ¬(direction_x { w := false, s := false, a := false, d := true } = 0
        ∧ direction_y { w := false, s := false, a := false, d := true } = 0)
    ∧ (Real.sqrt
          ((new_x { w := false, s := false, a := false, d := true } 1 setupMove - setupMove.x) ^ 2
            + (new_y { w := false, s := false, a := false, d := true } 1 setupMove - setupMove.y) ^ 2)
          = CAT_SPEED * 1
      ∧ (direction_y { w := false, s := false, a := false, d := true } = 0 →
          |new_x { w := false, s := false, a := false, d := true } 1 setupMove - setupMove.x|
              = CAT_SPEED * 1
            ∧ new_y { w := false, s := false, a := false, d := true } 1 setupMove = setupMove.y)
      ∧ (direction_x { w := false, s := false, a := false, d := true } = 0 →
          |new_y { w := false, s := false, a := false, d := true } 1 setupMove - setupMove.y|
              = CAT_SPEED * 1
            ∧ new_x { w := false, s := false, a := false, d := true } 1 setupMove = setupMove.x)) :=
  ⟨by norm_num [direction_x, direction_y],
    displacement_magnitude { w := false, s := false, a := false, d := true } 1 setupMove
      (by norm_num [direction_x, direction_y]) (by norm_num)⟩

/-- Claim C7: on any movement frame whose computed held-key direction vector
is zero (no directional key held, or opposing keys cancelling), the cat's
position is unchanged by that frame. -/
theorem zero_direction_keeps_position (k : Keys) (dt : ℝ) (win : BWindow)
    (st : MoveState) (h : direction_x k = 0 ∧ direction_y k = 0) :
    (move_cat k dt win st).x = st.x ∧ (move_cat k dt win st).y = st.y := by
  rw [move_cat_of_dir_zero k dt win st h]
  exact ⟨rfl, rfl⟩

theorem zero_direction_keeps_position_witness :
    (direction_x { w := false, s := false, a := false, d := false } = 0
      ∧ direction_y { w := false, s := false, a := false, d := false } = 0)
    ∧ ((move_cat { w := false, s := false, a := false, d := false } 1
          { width := 1024, height := 1024 } setupMove).x = setupMove.x
      ∧ (move_cat { w := false, s := false, a := false, d := false } 1
          { width := 1024, height := 1024 } setupMove).y = setupMove.y) :=
  ⟨by norm_num [direction_x, direction_y],
    zero_direction_keeps_position _ 1 _ setupMove (by norm_num [direction_x, direction_y])⟩

/-- Claim C8: on any movement frame where both the left key (A) and the right
key (D) are held, the horizontal-flip flag is false afterwards — the D branch
is evaluated after the A branch and clears the flip.  The embedded `move_cat`
is a total function, so this input combination produces no error. -/
theorem both_horizontal_keys_clear_flip (k : Keys) (dt : ℝ) (win : BWindow)
    (st : MoveState) (ha : k.a = true) (hd : k.d = true) :
    (move_cat k dt win st).flip_x = false := by
  by_cases hz : direction_x k = 0 ∧ direction_y k = 0
  · rw [move_cat_of_dir_zero k dt win st hz]
    show flipAfter k st.flip_x = false
    simp [flipAfter, hd]
  · rw [move_cat_of_dir_ne k dt win st hz]
    show flipAfter k st.flip_x = false
    simp [flipAfter, hd]

theorem both_horizontal_keys_clear_flip_witness :
    ({ w := false, s := false, a := true, d := true } : Keys).a = true
    ∧ ({ w := false, s := false, a := true, d := true } : Keys).d = true
    ∧ (move_cat { w := false, s := false, a := true, d := true } 1
        { width := 1024, height := 1024 } setupMove).flip_x = false :=
  ⟨rfl, rfl,
    both_horizontal_keys_clear_flip { w := false, s := false, a := true, d := true }
      1 { width := 1024, height := 1024 } setupMove rfl rfl⟩

/-- Claim C9 as stated is false: with the A key held, elapsed time 1 s and no
window, the claim predicts that the flip-flag update (to true) and the
unclamped position update (to `new_x`, which is `-250` here) still take place,
but `move_cat` is skipped entirely, leaving `flip_x = false` and `x = 0`. -/
theorem window_missing_counterexample :
    (move_cat_system { w := false, s := false, a := true, d := false } 1 none
        setupMove).flip_x ≠ true
    ∧ (move_cat_system { w := false, s := false, a := true, d := false } 1 none
        setupMove).x
      ≠ new_x { w := false, s := false, a := true, d := false } 1 setupMove := by
  constructor
  · exact fun hc => Bool.noConfusion hc
  · show setupMove.x ≠ new_x { w := false, s := false, a := true, d := false } 1 setupMove
    norm_num [new_x, direction_x, direction_y, CAT_SPEED, setupMove, Real.sqrt_one]

/-- Claim C9 (amended): when the primary window is unavailable during a
movement frame, the whole `move_cat` system is skipped for that frame — not
just the clamping step: the direction computation, flip-flag update, and
position update all do not take place, and the state is unchanged. -/
theorem window_missing_skips_system (k : Keys) (dt : ℝ) (st : MoveState) :
    move_cat_system k dt none st = st := rfl
